import Mathlib

/-!
A shallow embedding of the core of the `ai-knowledge-assistant` backend
(`backend/app/citations.py`, `backend/app/retrieval.py`,
`backend/app/agents.py`), with theorems about the citation builder, the
conversation memory, the calculator tool, relevance-filtered retrieval and
the agent orchestrator.

Modelling conventions:
* Python floats are modelled as rationals (`ℚ`).
* Python `hash` of a string is used by the code only as a deduplication key
  for the first 200 characters of a passage; it is modelled by that
  200-character key itself.
* The external providers (vector store, router/answer completion calls, web
  search, and the restricted `eval` inside the calculator) are inputs to the
  embedded functions: a caught provider exception is an `Except.error` input.
* Fallible code returns structured values, never raises, exactly as in the
  source (every Python method here wraps its body in try/except or cannot
  throw).
-/

set_option maxRecDepth 4000

namespace AIKA

/-- A retrieved passage: the fields of a langchain `Document` that the code
reads (`page_content` plus the metadata keys `source`, `page`,
`chunk_index`).  `page` is the upstream 0-indexed page number. -/
structure Document where
  page_content : String
  source : String
  page : Nat
  chunk_index : Nat
deriving DecidableEq

/-- A conversation message (`HumanMessage` / `AIMessage`). -/
inductive Message where
  | human (content : String)
  | ai (content : String)
deriving DecidableEq

def Message.content : Message → String
  | .human c => c
  | .ai c => c

/-- Python `round(q, 3)` (round-half behaviour idealised to mathematical
rounding). -/
def round3 (q : ℚ) : ℚ := (round (q * 1000) : ℚ) / 1000

/-- `citations.Citation` (dataclass). -/
structure Citation where
  citation_id : Nat
  source : String
  page : Nat
  chunk_index : Nat
  relevance_score : ℚ
  snippet : String
  full_content : String
deriving DecidableEq

/-- `Citation._get_relevance_label`. -/
def relevance_label (score : ℚ) : String :=
  if 7/10 ≤ score then "High"
  else if 4/10 ≤ score then "Medium"
  else if 2/10 ≤ score then "Low"
  else "Minimal"

/-- The dictionary produced by `Citation.to_dict`. -/
structure CitationDict where
  id : Nat
  source : String
  page : Nat
  chunk_index : Nat
  relevance_score : ℚ
  relevance_label : String
  snippet : String
deriving DecidableEq

/-- `Citation.to_dict`. -/
def Citation.to_dict (c : Citation) : CitationDict :=
  { id := c.citation_id, source := c.source, page := c.page,
    chunk_index := c.chunk_index, relevance_score := c.relevance_score,
    relevance_label := relevance_label c.relevance_score, snippet := c.snippet }

/-- Python `str.strip()`: remove leading and trailing whitespace (on the
character list, so that the function computes by reduction). -/
def pyStrip (l : List Char) : List Char :=
  ((l.dropWhile Char.isWhitespace).reverse.dropWhile Char.isWhitespace).reverse

/-- Python `" ".join(content.split())`: `str.split()` with no argument
splits on whitespace runs and drops empty fields. -/
def collapse_whitespace (content : String) : String :=
  String.intercalate " "
    (((content.toList.splitOnP Char.isWhitespace).filter (fun w => w ≠ [])).map
      (fun w => String.mk w))

/-- Python `str.rfind` restricted to a single character: the largest index of
`c`, `-1` when `c` does not occur. -/
def rfindChar (c : Char) : List Char → Int
  | [] => -1
  | x :: xs =>
    let r := rfindChar c xs
    if 0 ≤ r then r + 1 else if x = c then 0 else -1

/-- `CitationManager._create_snippet`. -/
def create_snippet (content : String) (max_length : Nat) : String :=
  let cleaned := collapse_whitespace content
  if cleaned.length ≤ max_length then cleaned
  else
    let truncated := cleaned.take max_length
    let last_period := rfindChar '.' truncated.toList
    let last_space := rfindChar ' ' truncated.toList
    if (max_length : ℚ) * (1/2) < (last_period : ℚ) then
      truncated.take (last_period.toNat + 1)
    else if 0 < last_space then
      truncated.take last_space.toNat ++ "..."
    else
      truncated ++ "..."

/-- The citation built by one loop iteration of
`CitationManager.create_citations_from_results` when `n - 1` citations exist
so far (`citation_id = len(self.citations) + 1`); the default
`snippet_length = 150` is used, as in every caller. -/
def mkCitation (n : Nat) (doc : Document) (score : ℚ) : Citation :=
  { citation_id := n, source := doc.source, page := doc.page + 1,
    chunk_index := doc.chunk_index, relevance_score := round3 score,
    snippet := create_snippet doc.page_content 150,
    full_content := doc.page_content }

/-- The loop of `CitationManager.create_citations_from_results` with its
mutable state (`seen_content`, `self.citations`) explicit.  Python's
`hash(doc.page_content[:200])` is modelled by the 200-character key itself. -/
def create_citations_go (seen : List String) (cits : List Citation) :
    List (Document × ℚ) → List Citation
  | [] => cits
  | (doc, score) :: rest =>
    let content_hash := doc.page_content.take 200
    if content_hash ∈ seen then
      create_citations_go seen cits rest
    else
      create_citations_go (content_hash :: seen)
        (cits ++ [mkCitation (cits.length + 1) doc score]) rest

/-- `CitationManager.create_citations_from_results` (it first resets
`self.citations` to `[]`, so the produced list is also the new manager
state). -/
def create_citations_from_results (results : List (Document × ℚ)) : List Citation :=
  create_citations_go [] [] results

/-- `CitationManager.build_context_with_citations`. -/
def build_context_with_citations (citations : List Citation) : String :=
  if citations = [] then ""
  else
    String.intercalate "\n\n---\n\n" (citations.map (fun c =>
      "[Source " ++ toString c.citation_id ++ ": " ++ c.source ++ ", Page " ++
        toString c.page ++ "]\n" ++ c.full_content))

/-- `CitationManager.format_sources_for_response` (`None` when the citation
list is empty). -/
def format_sources_for_response (citations : List Citation) : Option (List CitationDict) :=
  if citations = [] then none else some (citations.map Citation.to_dict)

/-- The dictionary returned by `CitationManager.get_citations_summary`; a key
absent from the Python dict is `none`. -/
structure CitationsSummary where
  total_sources : Nat
  sources : Option (List String)
  average_relevance : ℚ
  unique_documents : Option Nat
  documents : Option (List String)
  citations : Option (List CitationDict)
deriving DecidableEq

/-- `CitationManager.get_citations_summary`.  Python's `list(set(...))`
enumerates in unspecified order; it is modelled by `List.dedup` (same
elements, same cardinality). -/
def get_citations_summary (cits : List Citation) : CitationsSummary :=
  if cits = [] then
    { total_sources := 0, sources := some [], average_relevance := 0,
      unique_documents := none, documents := none, citations := none }
  else
    let sources := (cits.map Citation.source).dedup
    let avg_relevance := (cits.map Citation.relevance_score).sum / cits.length
    { total_sources := cits.length, sources := none,
      average_relevance := round3 avg_relevance,
      unique_documents := some sources.length, documents := some sources,
      citations := some (cits.map Citation.to_dict) }

/-- `retrieval.ConversationMemory`. -/
structure ConversationMemory where
  messages : List Message
  max_messages : Nat
deriving DecidableEq

/-- Python `lst[-k:]`: the last `k` elements — except that `lst[-0:]` is the
whole list. -/
def pySliceLast (l : List α) (k : Nat) : List α :=
  if k = 0 then l else l.drop (l.length - k)

/-- `ConversationMemory._trim_if_needed`. -/
def trim_if_needed (m : ConversationMemory) : ConversationMemory :=
  if m.max_messages * 2 < m.messages.length then
    { m with messages := pySliceLast m.messages (m.max_messages * 2) }
  else m

/-- `ConversationMemory.add_user_message`. -/
def add_user_message (m : ConversationMemory) (content : String) : ConversationMemory :=
  trim_if_needed { m with messages := m.messages ++ [Message.human content] }

/-- `ConversationMemory.add_ai_message`. -/
def add_ai_message (m : ConversationMemory) (content : String) : ConversationMemory :=
  trim_if_needed { m with messages := m.messages ++ [Message.ai content] }

/-- A sequence of `add_user_message` / `add_ai_message` calls, one per list
element. -/
def runAdds (m : ConversationMemory) : List Message → ConversationMemory
  | [] => m
  | .human c :: rest => runAdds (add_user_message m c) rest
  | .ai c :: rest => runAdds (add_ai_message m c) rest

/-- The add-sequence of a list of complete user/assistant exchanges. -/
def flattenExchanges (exchanges : List (String × String)) : List Message :=
  exchanges.flatMap (fun e => [Message.human e.1, Message.ai e.2])

/-- The entries form consecutive (user, assistant) pairs. -/
def isPaired : List Message → Bool
  | [] => true
  | .human _ :: .ai _ :: rest => isPaired rest
  | _ => false

/-- `ConversationMemory.get_context_string`. -/
def get_context_string (m : ConversationMemory) : String :=
  if m.messages = [] then ""
  else
    String.intercalate "\n" ((pySliceLast m.messages 6).map (fun msg =>
      (match msg with | .human _ => "User" | .ai _ => "Assistant") ++ ": " ++
        msg.content))

/-- The per-message truncation inside `AgentExecutor._generate_response`:
`msg.content[:200] + "..." if len(msg.content) > 200 else msg.content`. -/
def truncate_content (content : String) : String :=
  if 200 < content.length then content.take 200 ++ "..." else content

/-- The conversation-context block `AgentExecutor._generate_response` builds
from `self.conversation_history`. -/
def build_conv_context (history : List Message) : String :=
  if history = [] then ""
  else
    String.intercalate "\n" ((pySliceLast history 6).map (fun msg =>
      (match msg with | .human _ => "User" | .ai _ => "Assistant") ++ ": " ++
        truncate_content msg.content))

/-- The structured result of `CalculatorTool.calculate`; a key absent from
the Python dict is `none`. -/
structure CalcOutcome where
  success : Bool
  expression : String
  result : Option ℚ
  error : Option String
deriving DecidableEq

/-- Python `set("0123456789+-*/.() %")`. -/
def allowed_chars : List Char := "0123456789+-*/.() %".toList

/-- `CalculatorTool.calculate`.  `cleaned = expression.strip()`; Python's
`cleaned.replace(" ", "")` removes every space character, modelled as a
filter on the character list.  The restricted
`eval(cleaned, {"__builtins__": {}}, {})` call is the input `evalFn`; an
exception raised by it is `Except.error` and is caught, as in the source's
try/except. -/
def calculate (evalFn : String → Except String ℚ) (expression : String) : CalcOutcome :=
  let cleaned := String.mk (pyStrip expression.toList)
  let checked := (pyStrip expression.toList).filter (fun c => !(c == ' '))
  if ¬ (checked.all (fun c => allowed_chars.contains c)) then
    { success := false, expression := expression, result := none,
      error := some "Invalid characters in expression" }
  else
    match evalFn cleaned with
    | .ok v =>
      { success := true, expression := expression, result := some v, error := none }
    | .error e =>
      { success := false, expression := expression, result := none, error := some e }

/-- `RAGChain.retrieve_with_scores`, as a function of the vector store's
ranked `similarity_search_with_score` results for the query. -/
def retrieve_with_scores (results : List (Document × ℚ)) : List (Document × ℚ) :=
  results.foldl
    (fun filtered_results r =>
      if (15 : ℚ)/100 ≤ r.2 then filtered_results ++ [r] else filtered_results)
    []

/-- `AgentExecutor.min_relevance`. -/
def min_relevance : ℚ := 15/100

/-- `AgentExecutor._check_document_relevance`, as a function of the current
`CitationManager` state and the vector store call's outcome (`Except.error`
models the caught provider exception).  Returns
`(has_docs, filtered, new citation state)`. -/
def check_document_relevance (citState : List Citation)
    (searchResults : Except String (List (Document × ℚ))) :
    Bool × List (Document × ℚ) × List Citation :=
  match searchResults with
  | .error _ => (false, [], citState)
  | .ok results =>
    let filtered := results.filter (fun r => decide (min_relevance ≤ r.2))
    if filtered = [] then (false, [], citState)
    else (true, filtered, create_citations_from_results filtered)

/-- The four labels `ToolRouter.classify_intent` validates against. -/
def valid_intents : List String := ["documents", "web_search", "calculator", "general"]

/-- `ToolRouter.classify_intent`, as a function of the raw router-completion
text: `result = completion.strip().lower()`, validated against the fixed
category set with the deterministic fallback. -/
def classify_intent (llmOut : String) (has_relevant_docs : Bool) : String :=
  let result := String.mk ((pyStrip llmOut.toList).map Char.toLower)
  if result ∈ valid_intents then result
  else if has_relevant_docs then "documents" else "general"

/-- One normalized web result (`{title, url, content, score}`). -/
structure WebResult where
  title : String
  url : String
  content : String
  score : ℚ
deriving DecidableEq

/-- The structured result of `WebSearchTool.search`. -/
structure WebSearchOutcome where
  success : Bool
  query : String
  results : List WebResult
  answer : Option String
  error : Option String
deriving DecidableEq

/-- `WebSearchTool.search`, as a function of the provider call's outcome
(results plus optional answer, or a caught exception). -/
def web_search_tool (webRaw : Except String (List WebResult × Option String))
    (query : String) : WebSearchOutcome :=
  match webRaw with
  | .ok ra =>
    { success := true, query := query, results := ra.1, answer := ra.2, error := none }
  | .error e =>
    { success := false, query := query, results := [], answer := none, error := some e }

/-- `AgentExecutor._format_web_results`. -/
def format_web_results (w : WebSearchOutcome) : String :=
  if ¬ w.success ∨ w.results = [] then "No web results found."
  else
    String.intercalate "\n\n" ((w.results.enum).map (fun p =>
      "[Web Source " ++ toString (p.1 + 1) ++ "]: " ++ p.2.title ++ "\n" ++
      "URL: " ++ p.2.url ++ "\n" ++
      "Content: " ++ p.2.content.take 300 ++ "..."))

/-- A web source entry of the `run` result. -/
structure WebSource where
  id : Nat
  title : String
  url : String
  snippet : String
deriving DecidableEq

/-- The web-source repackaging in `AgentExecutor.run` (1-indexed display id,
150-character snippet). -/
def make_web_sources (results : List WebResult) : List WebSource :=
  (results.enum).map (fun p =>
    { id := p.1 + 1, title := p.2.title, url := p.2.url,
      snippet := p.2.content.take 150 ++ "..." })

/-- Rendering of the calculator's result value in the f-string
`f"{...} = {...}"`. -/
def showCalcResult : Option ℚ → String
  | some v => toString v
  | none => ""

/-- The `QueryResult` dictionary `AgentExecutor.run` returns. -/
structure QueryResult where
  answer : String
  tool_used : String
  sources : Option (List CitationDict)
  web_sources : Option (List WebSource)
  used_rag : Bool
  documents_searched : Nat
deriving DecidableEq

/-- The mutable orchestrator state `run` touches: `self.citation_manager`'s
citation list and `self.conversation_history`. -/
structure AgentState where
  citations : List Citation
  conversation_history : List Message
deriving DecidableEq

/-- The outcomes of the external calls a single `run` turn can make: the
vector search, the router completion, the web-search provider, the
calculator's `eval`, and the answer generation. -/
structure RunOracles where
  searchResults : Except String (List (Document × ℚ))
  intentRaw : String
  webRaw : Except String (List WebResult × Option String)
  calcEval : String → Except String ℚ
  llmResponse : String

/-- Step 3 of `AgentExecutor.run` ("Execute based on intent"): the final
`tool_used`, the gathered `context`, and the `web_sources` / `sources`
values, as one branch of the if/elif chain. -/
def gather_step (cit1 : List Citation) (o : RunOracles) (query : String)
    (intent : String) (has_docs : Bool) :
    String × String × Option (List WebSource) × Option (List CitationDict) :=
  if intent = "documents" ∧ has_docs = true then
    ("documents", build_context_with_citations cit1, none,
      format_sources_for_response cit1)
  else if intent = "web_search" ∨ (intent = "documents" ∧ has_docs = false) then
    let web_results := web_search_tool o.webRaw query
    ("web_search", format_web_results web_results,
      if web_results.success then some (make_web_sources web_results.results)
      else none,
      none)
  else if intent = "calculator" then
    let calc_result := calculate o.calcEval query
    ("calculator",
      if calc_result.success then
        calc_result.expression ++ " = " ++ showCalcResult calc_result.result
      else "Could not calculate: " ++ calc_result.error.getD "Unknown error",
      none, none)
  else
    ("general", "", none, none)

/-- `AgentExecutor.run`. -/
def run (st : AgentState) (o : RunOracles) (query : String) :
    QueryResult × AgentState :=
  let rel := check_document_relevance st.citations o.searchResults
  let has_docs := rel.1
  let cit1 := rel.2.2
  let intent := classify_intent o.intentRaw has_docs
  let gather := gather_step cit1 o query intent has_docs
  let tool_used := gather.1
  let web_sources := gather.2.2.1
  let sources := gather.2.2.2
  let response := o.llmResponse
  let hist1 := st.conversation_history ++ [Message.human query, Message.ai response]
  let hist2 := if 20 < hist1.length then pySliceLast hist1 20 else hist1
  ({ answer := response, tool_used := tool_used, sources := sources,
     web_sources := web_sources, used_rag := tool_used == "documents",
     documents_searched := match sources with | some s => s.length | none => 0 },
   { citations := cit1, conversation_history := hist2 })

/-- The relevance-filtered passages a `run` turn sees for a given vector
store outcome (empty on a caught provider exception). -/
def filteredOf : Except String (List (Document × ℚ)) → List (Document × ℚ)
  | .error _ => []
  | .ok results => results.filter (fun r => decide (min_relevance ≤ r.2))

/-- Spec-side deduplication ("identical first-200-character fingerprints
collapse, first occurrence wins, order preserved"), on passage texts. -/
def dedupByFingerprint (seen : List String) : List String → List String
  | [] => []
  | x :: xs =>
    if x.take 200 ∈ seen then dedupByFingerprint seen xs
    else x :: dedupByFingerprint (x.take 200 :: seen) xs

/-- keep-first-by-fingerprint on scored passages (the loop's surviving
iterations). -/
def keepFirst (seen : List String) : List (Document × ℚ) → List (Document × ℚ)
  | [] => []
  | r :: rest =>
    if r.1.page_content.take 200 ∈ seen then keepFirst seen rest
    else r :: keepFirst (r.1.page_content.take 200 :: seen) rest

/-- The citations the builder emits for an already-deduplicated passage list,
ids starting at `start + 1`. -/
def citationsOf (start : Nat) : List (Document × ℚ) → List Citation
  | [] => []
  | (doc, score) :: rest => mkCitation (start + 1) doc score :: citationsOf (start + 1) rest

/-- A concrete turn for exercising `run`: the vector store returns nothing,
the router completion says `"documents"`, the web provider fails, the
calculator's eval fails, generation returns `"ans"`. -/
def C1wit_o : RunOracles :=
  { searchResults := Except.ok [], intentRaw := "documents",
    webRaw := Except.error "down", calcEval := fun _ => Except.error "bad",
    llmResponse := "ans" }

/-- A concrete first-turn oracle set: one passage scoring `1/2`, routed as
`"documents"`. -/
def C7doc : Document :=
  { page_content := "alpha", source := "doc.pdf", page := 0, chunk_index := 0 }

def C7o1 : RunOracles :=
  { searchResults := Except.ok [(C7doc, 1/2)], intentRaw := "documents",
    webRaw := Except.error "down", calcEval := fun _ => Except.error "bad",
    llmResponse := "a1" }

/-- A concrete second-turn oracle set: the vector store returns nothing and
the router says `"general"`. -/
def C7o2 : RunOracles :=
  { searchResults := Except.ok [], intentRaw := "general",
    webRaw := Except.error "down", calcEval := fun _ => Except.error "bad",
    llmResponse := "a2" }

/-! ## Lemmas about the citation builder -/

theorem create_citations_go_eq (results : List (Document × ℚ)) :
    ∀ (seen : List String) (cits : List Citation),
    create_citations_go seen cits results
      = cits ++ citationsOf cits.length (keepFirst seen results) := by
  induction results with
  | nil => intro seen cits; simp [create_citations_go, keepFirst, citationsOf]
  | cons r rest ih =>
    intro seen cits
    obtain ⟨doc, score⟩ := r
    by_cases h : doc.page_content.take 200 ∈ seen
    · simp [create_citations_go, keepFirst, h, ih]
    · simp only [create_citations_go, keepFirst, h, if_false, ite_false, if_neg,
        not_false_iff]
      rw [ih]
      simp [citationsOf, List.length_append]

theorem create_citations_eq (results : List (Document × ℚ)) :
    create_citations_from_results results = citationsOf 0 (keepFirst [] results) := by
  simpa [create_citations_from_results] using create_citations_go_eq results [] []

theorem citationsOf_map_content (l : List (Document × ℚ)) :
    ∀ n, (citationsOf n l).map Citation.full_content
      = l.map (fun r => r.1.page_content) := by
  induction l with
  | nil => intro n; simp [citationsOf]
  | cons r rest ih =>
    intro n
    obtain ⟨doc, score⟩ := r
    simp [citationsOf, mkCitation, ih]

theorem citationsOf_map_id (l : List (Document × ℚ)) :
    ∀ n, (citationsOf n l).map Citation.citation_id = List.range' (n + 1) l.length := by
  induction l with
  | nil => intro n; simp [citationsOf]
  | cons r rest ih =>
    intro n
    obtain ⟨doc, score⟩ := r
    simp [citationsOf, mkCitation, ih, List.range'_succ]

theorem citationsOf_length (l : List (Document × ℚ)) :
    ∀ n, (citationsOf n l).length = l.length := by
  induction l with
  | nil => intro n; simp [citationsOf]
  | cons r rest ih =>
    intro n
    obtain ⟨doc, score⟩ := r
    simp [citationsOf, ih]

theorem keepFirst_map_content (l : List (Document × ℚ)) :
    ∀ seen, (keepFirst seen l).map (fun r => r.1.page_content)
      = dedupByFingerprint seen (l.map (fun r => r.1.page_content)) := by
  induction l with
  | nil => intro seen; simp [keepFirst, dedupByFingerprint]
  | cons r rest ih =>
    intro seen
    by_cases h : r.1.page_content.take 200 ∈ seen
    · simp [keepFirst, dedupByFingerprint, h, ih]
    · simp [keepFirst, dedupByFingerprint, h, ih]

theorem keepFirst_sublist (l : List (Document × ℚ)) :
    ∀ seen, List.Sublist (keepFirst seen l) l := by
  induction l with
  | nil => intro seen; simp [keepFirst]
  | cons r rest ih =>
    intro seen
    by_cases h : r.1.page_content.take 200 ∈ seen
    · simpa [keepFirst, h] using (ih seen).cons r
    · simpa [keepFirst, h] using (ih (r.1.page_content.take 200 :: seen)).cons₂ r

theorem dedupByFingerprint_spec (l : List String) :
    ∀ seen, (∀ y ∈ dedupByFingerprint seen l, y.take 200 ∉ seen)
      ∧ ((dedupByFingerprint seen l).map (fun y => y.take 200)).Nodup := by
  induction l with
  | nil => intro seen; simp [dedupByFingerprint]
  | cons x xs ih =>
    intro seen
    by_cases h : x.take 200 ∈ seen
    · simpa [dedupByFingerprint, h] using ih seen
    · constructor
      · intro y hy
        simp only [dedupByFingerprint, h, if_neg, not_false_iff, ite_false,
          List.mem_cons] at hy
        rcases hy with rfl | hy
        · exact h
        · have hns := (ih (x.take 200 :: seen)).1 y hy
          intro hc
          exact hns (List.mem_cons_of_mem _ hc)
      · simp only [dedupByFingerprint, h, if_neg, not_false_iff, ite_false,
          List.map_cons, List.nodup_cons]
        refine ⟨?_, (ih (x.take 200 :: seen)).2⟩
        intro hmem
        rcases List.mem_map.1 hmem with ⟨y, hy, hyeq⟩
        have hns := (ih (x.take 200 :: seen)).1 y hy
        exact hns (by rw [hyeq]; exact List.mem_cons_self _ _)

theorem dedupByFingerprint_covers (l : List String) :
    ∀ seen x, x ∈ l → x.take 200 ∉ seen →
      ∃ y ∈ dedupByFingerprint seen l, y.take 200 = x.take 200 := by
  induction l with
  | nil => intro seen x hx _; simp at hx
  | cons z zs ih =>
    intro seen x hx hxs
    by_cases hz : z.take 200 ∈ seen
    · rcases List.mem_cons.1 hx with rfl | hx
      · exact absurd hz hxs
      · simpa [dedupByFingerprint, hz] using ih seen x hx hxs
    · rcases List.mem_cons.1 hx with rfl | hx
      · exact ⟨x, by simp [dedupByFingerprint, hz], rfl⟩
      · by_cases hxz : x.take 200 = z.take 200
        · exact ⟨z, by simp [dedupByFingerprint, hz], hxz.symm⟩
        · obtain ⟨y, hy, hyeq⟩ := ih (z.take 200 :: seen) x hx
            (by simp [hxz, hxs])
          exact ⟨y, by simp [dedupByFingerprint, hz, hy], hyeq⟩

theorem create_citations_map_content (results : List (Document × ℚ)) :
    (create_citations_from_results results).map Citation.full_content
      = dedupByFingerprint [] (results.map (fun r => r.1.page_content)) := by
  rw [create_citations_eq, citationsOf_map_content, keepFirst_map_content]

theorem create_citations_nonempty (results : List (Document × ℚ)) (h : results ≠ []) :
    create_citations_from_results results ≠ [] := by
  obtain ⟨r, rest, rfl⟩ := List.exists_cons_of_ne_nil h
  rw [create_citations_eq]
  simp [keepFirst, citationsOf]

/-! ## Theorems for the claims about the citation builder -/

/-- Claim C3: `create_citations_from_results` collapses passages with
identical first-200-character content into exactly one citation — the
surviving passage texts are exactly the spec-side first-occurrence
deduplication of the input texts, their fingerprints are pairwise distinct,
the survivors appear in input order (a sublist of the input), and every input
passage's fingerprint is represented by some citation. -/
theorem claim_C3 (results : List (Document × ℚ)) :
    (create_citations_from_results results).map Citation.full_content
        = dedupByFingerprint [] (results.map (fun r => r.1.page_content))
    ∧ (((create_citations_from_results results).map Citation.full_content).map
        (fun s => s.take 200)).Nodup
    ∧ List.Sublist ((create_citations_from_results results).map Citation.full_content)
        (results.map (fun r => r.1.page_content))
    ∧ ∀ r ∈ results, ∃ c ∈ create_citations_from_results results,
        c.full_content.take 200 = r.1.page_content.take 200 := by
  have hmap := create_citations_map_content results
  refine ⟨hmap, ?_, ?_, ?_⟩
  · rw [hmap]
    exact (dedupByFingerprint_spec (results.map fun r => r.1.page_content) []).2
  · rw [create_citations_eq, citationsOf_map_content]
    exact (keepFirst_sublist results []).map _
  · intro r hr
    obtain ⟨y, hy, hyeq⟩ := dedupByFingerprint_covers
      (results.map fun r => r.1.page_content) [] r.1.page_content
      (List.mem_map_of_mem _ hr) (by simp)
    rw [← hmap] at hy
    obtain ⟨c, hc, hceq⟩ := List.mem_map.1 hy
    refine ⟨c, hc, ?_⟩
    rw [hceq]; exact hyeq

/-- Claim C4: the citation ids produced by `create_citations_from_results`
are the dense sequence `1..N` (no gaps, no duplicates, assigned in input
order), where `N` is the number of passages surviving deduplication. -/
theorem claim_C4 (results : List (Document × ℚ)) :
    (create_citations_from_results results).map Citation.citation_id
        = List.range' 1 (create_citations_from_results results).length
    ∧ (create_citations_from_results results).length
        = (dedupByFingerprint [] (results.map (fun r => r.1.page_content))).length := by
  constructor
  · rw [create_citations_eq, citationsOf_map_id, citationsOf_length]
  · have := congrArg List.length (create_citations_map_content results)
    simpa using this

/-- Claim C10: `get_citations_summary` on an empty citation list is exactly
`{total_sources: 0, sources: [], average_relevance: 0}` with the
`unique_documents` / `documents` / `citations` keys absent; on a non-empty
list, `average_relevance` is the mean of the stored relevance scores rounded
to 3 decimal places and `unique_documents` is the number of distinct source
identifiers. -/
theorem claim_C10 (cits : List Citation) :
    (cits = [] →
      get_citations_summary cits
        = { total_sources := 0, sources := some [], average_relevance := 0,
            unique_documents := none, documents := none, citations := none })
    ∧ (cits ≠ [] →
      (get_citations_summary cits).average_relevance
          = round3 ((cits.map Citation.relevance_score).sum / cits.length)
      ∧ (get_citations_summary cits).unique_documents
          = some ((cits.map Citation.source).toFinset.card)
      ∧ (get_citations_summary cits).total_sources = cits.length
      ∧ (get_citations_summary cits).sources = none
      ∧ (get_citations_summary cits).documents = some ((cits.map Citation.source).dedup)
      ∧ (get_citations_summary cits).citations = some (cits.map Citation.to_dict)) := by
  constructor
  · intro h; simp [get_citations_summary, h]
  · intro h
    have hs : get_citations_summary cits
        = { total_sources := cits.length, sources := none,
            average_relevance :=
              round3 ((cits.map Citation.relevance_score).sum / cits.length),
            unique_documents := some ((cits.map Citation.source).dedup.length),
            documents := some ((cits.map Citation.source).dedup),
            citations := some (cits.map Citation.to_dict) } := by
      simp [get_citations_summary, h]
    rw [hs]
    exact ⟨rfl, by rw [List.card_toFinset], rfl, rfl, rfl, rfl⟩

/-! ## Lemmas about the conversation memory -/

theorem trim_max (m : ConversationMemory) :
    (trim_if_needed m).max_messages = m.max_messages := by
  unfold trim_if_needed
  split <;> rfl

theorem trim_le (m : ConversationMemory) (h : m.max_messages ≠ 0) :
    (trim_if_needed m).messages.length ≤ m.max_messages * 2 := by
  unfold trim_if_needed
  split
  · next hlt =>
    simp only [pySliceLast]
    rw [if_neg (by omega : ¬ m.max_messages * 2 = 0)]
    rw [List.length_drop]
    omega
  · next hle => omega

theorem trim_suffix (m : ConversationMemory) :
    List.IsSuffix (trim_if_needed m).messages m.messages := by
  unfold trim_if_needed
  split
  · simp only [pySliceLast]
    split
    · exact List.suffix_refl _
    · exact List.drop_suffix _ _
  · exact List.suffix_refl _

theorem add_user_max (m : ConversationMemory) (c : String) :
    (add_user_message m c).max_messages = m.max_messages := trim_max _

theorem add_ai_max (m : ConversationMemory) (c : String) :
    (add_ai_message m c).max_messages = m.max_messages := trim_max _

theorem add_user_length (m : ConversationMemory) (c : String) (h : m.max_messages ≠ 0) :
    (add_user_message m c).messages.length
      = min (m.max_messages * 2) (m.messages.length + 1) := by
  unfold add_user_message trim_if_needed
  split
  · next hlt =>
    simp only [pySliceLast]
    rw [if_neg (by omega : ¬ m.max_messages * 2 = 0)]
    rw [List.length_drop]
    simp only [List.length_append, List.length_cons, List.length_nil] at hlt ⊢
    omega
  · next hle =>
    simp only [List.length_append, List.length_cons, List.length_nil] at hle ⊢
    omega

theorem add_ai_length (m : ConversationMemory) (c : String) (h : m.max_messages ≠ 0) :
    (add_ai_message m c).messages.length
      = min (m.max_messages * 2) (m.messages.length + 1) := by
  unfold add_ai_message trim_if_needed
  split
  · next hlt =>
    simp only [pySliceLast]
    rw [if_neg (by omega : ¬ m.max_messages * 2 = 0)]
    rw [List.length_drop]
    simp only [List.length_append, List.length_cons, List.length_nil] at hlt ⊢
    omega
  · next hle =>
    simp only [List.length_append, List.length_cons, List.length_nil] at hle ⊢
    omega

theorem exchange_even (m : ConversationMemory) (u a : String) (h : m.max_messages ≠ 0)
    (he : m.messages.length % 2 = 0) :
    (add_ai_message (add_user_message m u) a).messages.length % 2 = 0 := by
  have h1 := add_user_length m u h
  have h2 := add_ai_length (add_user_message m u) a (by rw [add_user_max]; exact h)
  rw [add_user_max] at h2
  omega

theorem runAdds_max (adds : List Message) :
    ∀ m : ConversationMemory, (runAdds m adds).max_messages = m.max_messages := by
  induction adds with
  | nil => intro m; rfl
  | cons msg rest ih =>
    intro m
    cases msg with
    | human c => rw [show runAdds m (Message.human c :: rest)
        = runAdds (add_user_message m c) rest from rfl, ih, add_user_max]
    | ai c => rw [show runAdds m (Message.ai c :: rest)
        = runAdds (add_ai_message m c) rest from rfl, ih, add_ai_max]

theorem add_user_le (m : ConversationMemory) (c : String) (h : m.max_messages ≠ 0) :
    (add_user_message m c).messages.length ≤ m.max_messages * 2 := by
  unfold add_user_message
  exact trim_le _ (by simpa using h)

theorem add_ai_le (m : ConversationMemory) (c : String) (h : m.max_messages ≠ 0) :
    (add_ai_message m c).messages.length ≤ m.max_messages * 2 := by
  unfold add_ai_message
  exact trim_le _ (by simpa using h)

theorem add_user_suffix (m : ConversationMemory) (c : String) :
    List.IsSuffix (add_user_message m c).messages (m.messages ++ [Message.human c]) := by
  unfold add_user_message
  exact trim_suffix _

theorem add_ai_suffix (m : ConversationMemory) (c : String) :
    List.IsSuffix (add_ai_message m c).messages (m.messages ++ [Message.ai c]) := by
  unfold add_ai_message
  exact trim_suffix _

theorem runAdds_le (adds : List Message) :
    ∀ m : ConversationMemory, m.max_messages ≠ 0 →
      m.messages.length ≤ m.max_messages * 2 →
      (runAdds m adds).messages.length ≤ m.max_messages * 2 := by
  induction adds with
  | nil => intro m _ hle; exact hle
  | cons msg rest ih =>
    intro m h hle
    cases msg with
    | human c =>
      rw [show runAdds m (Message.human c :: rest)
          = runAdds (add_user_message m c) rest from rfl]
      have := ih (add_user_message m c) (by rw [add_user_max]; exact h)
        (by rw [add_user_max]; exact add_user_le m c h)
      rw [add_user_max] at this
      exact this
    | ai c =>
      rw [show runAdds m (Message.ai c :: rest)
          = runAdds (add_ai_message m c) rest from rfl]
      have := ih (add_ai_message m c) (by rw [add_ai_max]; exact h)
        (by rw [add_ai_max]; exact add_ai_le m c h)
      rw [add_ai_max] at this
      exact this

theorem isSuffix_append_right {α : Type} {l₁ l₂ t : List α}
    (h : List.IsSuffix l₁ l₂) : List.IsSuffix (l₁ ++ t) (l₂ ++ t) := by
  obtain ⟨u, hu⟩ := h
  exact ⟨u, by rw [← List.append_assoc, hu]⟩

theorem runAdds_suffix (adds : List Message) :
    ∀ m : ConversationMemory,
      List.IsSuffix (runAdds m adds).messages (m.messages ++ adds) := by
  induction adds with
  | nil => intro m; simp [runAdds]
  | cons msg rest ih =>
    intro m
    cases msg with
    | human c =>
      rw [show runAdds m (Message.human c :: rest)
          = runAdds (add_user_message m c) rest from rfl]
      have h3 := (ih (add_user_message m c)).trans
        (isSuffix_append_right (add_user_suffix m c))
      simpa [List.append_assoc] using h3
    | ai c =>
      rw [show runAdds m (Message.ai c :: rest)
          = runAdds (add_ai_message m c) rest from rfl]
      have h3 := (ih (add_ai_message m c)).trans
        (isSuffix_append_right (add_ai_suffix m c))
      simpa [List.append_assoc] using h3

theorem paired_length_even : ∀ l : List Message, isPaired l = true → l.length % 2 = 0
  | [] => fun _ => rfl
  | [Message.human _] => by simp [isPaired]
  | Message.human _ :: Message.human _ :: _ => by simp [isPaired]
  | Message.human _ :: Message.ai _ :: rest => fun h => by
      have := paired_length_even rest (by simpa [isPaired] using h)
      simp only [List.length_cons]
      omega
  | Message.ai _ :: _ => by simp [isPaired]

theorem paired_append : ∀ t s : List Message,
    isPaired (t ++ s) = true → t.length % 2 = 0 → isPaired s = true
  | [], s => fun h _ => h
  | [Message.human _], s => fun _ h2 => by simp at h2
  | Message.human _ :: Message.human _ :: t', s => fun h _ => by
      simp [isPaired] at h
  | Message.human _ :: Message.ai _ :: t', s => fun h h2 =>
      paired_append t' s (by simpa [isPaired] using h)
        (by simp only [List.length_cons] at h2; omega)
  | Message.ai _ :: _, s => fun h _ => by simp [isPaired] at h

theorem paired_suffix (l s : List Message) (hp : isPaired l = true)
    (hs : List.IsSuffix s l) (he : s.length % 2 = 0) : isPaired s = true := by
  obtain ⟨t, ht⟩ := hs
  have hl := paired_length_even l hp
  rw [← ht] at hl
  simp only [List.length_append] at hl
  exact paired_append t s (by rw [ht]; exact hp) (by omega)

theorem flatten_paired : ∀ ex : List (String × String),
    isPaired (flattenExchanges ex) = true
  | [] => rfl
  | e :: rest => by
      show isPaired (Message.human e.1 :: Message.ai e.2 :: flattenExchanges rest) = true
      simpa [isPaired] using flatten_paired rest

theorem runAdds_flatten_even (ex : List (String × String)) :
    ∀ m : ConversationMemory, m.max_messages ≠ 0 → m.messages.length % 2 = 0 →
      (runAdds m (flattenExchanges ex)).messages.length % 2 = 0 := by
  induction ex with
  | nil => intro m _ he; exact he
  | cons e rest ih =>
    intro m h he
    have hstep : runAdds m (flattenExchanges (e :: rest))
        = runAdds (add_ai_message (add_user_message m e.1) e.2)
            (flattenExchanges rest) := rfl
    rw [hstep]
    exact ih _ (by rw [add_ai_max, add_user_max]; exact h) (exchange_even m e.1 e.2 h he)

/-! ## Theorems for the claims about the conversation memory -/

/-- Claim C5 (amended): provided `max_messages ≥ 1`, after any sequence of
`add_user_message` / `add_ai_message` calls the memory holds at most
`max_messages * 2` entries, the surviving entries are a suffix of the added
sequence (only the oldest entries are ever removed), and after any sequence
of complete user/assistant exchanges the surviving entries form complete
user/assistant pairs.  (With `max_messages = 0` the Python slice `[-0:]`
disables trimming, so the cap fails — see the counterexample.) -/
theorem claim_C5 (max : Nat) (adds : List Message)
    (exchanges : List (String × String)) (h : 1 ≤ max) :
    (runAdds { messages := [], max_messages := max } adds).messages.length ≤ max * 2
    ∧ List.IsSuffix (runAdds { messages := [], max_messages := max } adds).messages adds
    ∧ isPaired (runAdds { messages := [], max_messages := max }
        (flattenExchanges exchanges)).messages = true := by
  have hm : ({ messages := [], max_messages := max } : ConversationMemory).max_messages ≠ 0 := by
    simp; omega
  refine ⟨?_, ?_, ?_⟩
  · exact runAdds_le adds _ hm (by simp)
  · simpa using runAdds_suffix adds { messages := [], max_messages := max }
  · refine paired_suffix (flattenExchanges exchanges) _ (flatten_paired exchanges) ?_ ?_
    · simpa using runAdds_suffix (flattenExchanges exchanges)
        { messages := [], max_messages := max }
    · exact runAdds_flatten_even exchanges _ hm rfl

/-- Claim C5, counterexample to the unrestricted statement: with
`max_messages = 0` the cap `max_messages * 2 = 0` is violated after a single
addition, because Python's `messages[-0:]` slice returns the whole list and
`_trim_if_needed` removes nothing. -/
theorem claim_C5_counterexample :
    ¬ ((add_user_message { messages := [], max_messages := 0 } "x").messages.length
        ≤ 0 * 2) := by decide

/-- Claim C5 witness: the amended statement at `max_messages = 1`, a
three-message add sequence and a two-exchange sequence. -/
theorem claim_C5_witness :
    (runAdds { messages := [], max_messages := 1 }
        [Message.human "a", Message.ai "b", Message.human "c"]).messages.length ≤ 1 * 2
    ∧ List.IsSuffix (runAdds { messages := [], max_messages := 1 }
        [Message.human "a", Message.ai "b", Message.human "c"]).messages
        [Message.human "a", Message.ai "b", Message.human "c"]
    ∧ isPaired (runAdds { messages := [], max_messages := 1 }
        (flattenExchanges [("a", "b"), ("c", "d")])).messages = true :=
  claim_C5 1 [Message.human "a", Message.ai "b", Message.human "c"]
    [("a", "b"), ("c", "d")] (by decide)

/-- Claim C6 (amended): both renderings of recent conversation use at most
the last 6 entries; the truncation in `AgentExecutor._generate_response`
replaces a message longer than 200 characters by its first 200 characters
followed by the `"..."` marker and leaves shorter messages unchanged; an
empty history renders as the empty string (there is no "no history"
placeholder), and `ConversationMemory.get_context_string` applies no
truncation at all. -/
theorem claim_C6 (max : Nat) (msgs : List Message) (s : String) :
    get_context_string { messages := [], max_messages := max } = ""
    ∧ build_conv_context [] = ""
    ∧ (pySliceLast msgs 6).length ≤ 6
    ∧ (200 < s.length → truncate_content s = s.take 200 ++ "...")
    ∧ (s.length ≤ 200 → truncate_content s = s)
    ∧ (msgs ≠ [] → get_context_string { messages := msgs, max_messages := max }
        = String.intercalate "\n" ((pySliceLast msgs 6).map (fun msg =>
            (match msg with | .human _ => "User" | .ai _ => "Assistant") ++ ": " ++
              msg.content))) := by
  refine ⟨?_, ?_, ?_, ?_, ?_, ?_⟩
  · simp [get_context_string]
  · simp [build_conv_context]
  · simp only [pySliceLast]
    rw [if_neg (by omega : ¬ (6 : Nat) = 0)]
    rw [List.length_drop]
    omega
  · intro hlen; simp [truncate_content, hlen]
  · intro hlen; simp [truncate_content, Nat.not_lt.2 hlen]
  · intro hne; simp [get_context_string, hne]

/-- Claim C6, counterexample: the code's rendering of an empty history is the
empty string, not a "no history" placeholder, and a 400-character message is
rendered in full (406 output characters), not truncated to 200–300 characters
with an ellipsis marker. -/
theorem claim_C6_counterexample :
    get_context_string { messages := [], max_messages := 10 } = ""
    ∧ (get_context_string
        { messages := [Message.human (String.mk (List.replicate 400 'a'))],
          max_messages := 10 }).length = 406 := by
  constructor
  · rfl
  · rfl

/-! ## Calculator -/

/-- Claim C2: `calculate` always returns a structured result echoing the
input expression; an input containing any non-whitelisted character (after
Python's `strip` and space removal) yields `success = false` with the
validation error, with a result independent of the evaluation function (the
expression is never evaluated) — in particular `"__import__(os)"` is
rejected; and when the whitelisted expression is evaluated, an evaluation
error is caught and returned as `success = false` with its message while a
successful evaluation is returned with `success = true`. -/
theorem claim_C2 (f g : String → Except String ℚ) (e : String) :
    (calculate f e).expression = e
    ∧ (¬ (((pyStrip e.toList).filter (fun c => !(c == ' '))).all
          (fun c => allowed_chars.contains c)) →
        calculate f e
          = { success := false, expression := e, result := none,
              error := some "Invalid characters in expression" }
        ∧ calculate f e = calculate g e)
    ∧ (∀ msg, (((pyStrip e.toList).filter (fun c => !(c == ' '))).all
          (fun c => allowed_chars.contains c)) →
        f (String.mk (pyStrip e.toList)) = Except.error msg →
        calculate f e
          = { success := false, expression := e, result := none, error := some msg })
    ∧ (∀ v : ℚ, (((pyStrip e.toList).filter (fun c => !(c == ' '))).all
          (fun c => allowed_chars.contains c)) →
        f (String.mk (pyStrip e.toList)) = Except.ok v →
        calculate f e
          = { success := true, expression := e, result := some v, error := none })
    ∧ (calculate f "__import__(os)").success = false := by
  refine ⟨?_, ?_, ?_, ?_, ?_⟩
  · by_cases hb : ((pyStrip e.toList).filter (fun c => !(c == ' '))).all
        (fun c => allowed_chars.contains c) = true
    · simp only [calculate]
      rw [if_neg (not_not_intro hb)]
      cases f (String.mk (pyStrip e.toList)) <;> rfl
    · simp only [calculate]
      rw [if_pos hb]
  · intro hbad
    constructor
    · simp only [calculate]
      rw [if_pos hbad]
    · simp only [calculate]
      rw [if_pos hbad, if_pos hbad]
  · intro msg hok herr
    simp only [calculate]
    rw [if_neg (not_not_intro hok), herr]
  · intro v hok hval
    simp only [calculate]
    rw [if_neg (not_not_intro hok), hval]
  · have hbad : ¬ (((pyStrip ("__import__(os)" : String).toList).filter
        (fun c => !(c == ' '))).all (fun c => allowed_chars.contains c) = true) := by
      decide
    simp only [calculate]
    rw [if_pos hbad]

/-! ## Relevance-filtered retrieval -/

theorem retrieve_foldl (l : List (Document × ℚ)) :
    ∀ acc : List (Document × ℚ),
      l.foldl (fun filtered_results r =>
          if (15 : ℚ)/100 ≤ r.2 then filtered_results ++ [r] else filtered_results) acc
        = acc ++ l.filter (fun r => decide ((15 : ℚ)/100 ≤ r.2)) := by
  induction l with
  | nil => intro acc; simp
  | cons r rest ih =>
    intro acc
    by_cases h : (15 : ℚ)/100 ≤ r.2
    · simp [List.foldl_cons, h, ih, List.filter_cons]
    · simp [List.foldl_cons, h, ih, List.filter_cons]

/-- Claim C8: `retrieve_with_scores` returns exactly the store results whose
score is at least the fixed threshold `0.15` — it equals a filter of the
input, is a sublist of it (original rank order, no re-sorting), every
returned score is `≥ 0.15`, and when every score is below the threshold the
result is empty. -/
theorem claim_C8 (results : List (Document × ℚ)) :
    retrieve_with_scores results
        = results.filter (fun r => decide ((15 : ℚ)/100 ≤ r.2))
    ∧ List.Sublist (retrieve_with_scores results) results
    ∧ (∀ r ∈ retrieve_with_scores results, (15 : ℚ)/100 ≤ r.2)
    ∧ ((∀ r ∈ results, r.2 < (15 : ℚ)/100) → retrieve_with_scores results = []) := by
  have heq : retrieve_with_scores results
      = results.filter (fun r => decide ((15 : ℚ)/100 ≤ r.2)) := by
    unfold retrieve_with_scores
    simpa using retrieve_foldl results []
  refine ⟨heq, ?_, ?_, ?_⟩
  · rw [heq]; exact List.filter_sublist _
  · intro r hr
    rw [heq] at hr
    exact of_decide_eq_true (List.mem_filter.1 hr).2
  · intro hall
    rw [heq]
    refine List.filter_eq_nil_iff.mpr ?_
    intro r hr
    simpa using not_le.mpr (hall r hr)

/-! ## The orchestrator -/

theorem check_eq (cs : List Citation) (sr : Except String (List (Document × ℚ))) :
    check_document_relevance cs sr
      = if filteredOf sr = [] then (false, [], cs)
        else (true, filteredOf sr, create_citations_from_results (filteredOf sr)) := by
  cases sr with
  | error e => rfl
  | ok results => rfl

theorem classify_cases (s : String) (b : Bool) :
    classify_intent s b = "documents" ∨ classify_intent s b = "web_search"
    ∨ classify_intent s b = "calculator" ∨ classify_intent s b = "general" := by
  simp only [classify_intent]
  split
  · next h => simpa [valid_intents] using h
  · cases b
    · right; right; right; simp
    · left; simp

theorem run_tool_used (st : AgentState) (o : RunOracles) (q : String) :
    (run st o q).1.tool_used
      = (gather_step (check_document_relevance st.citations o.searchResults).2.2 o q
          (classify_intent o.intentRaw
            (check_document_relevance st.citations o.searchResults).1)
          (check_document_relevance st.citations o.searchResults).1).1 := rfl

theorem run_sources (st : AgentState) (o : RunOracles) (q : String) :
    (run st o q).1.sources
      = (gather_step (check_document_relevance st.citations o.searchResults).2.2 o q
          (classify_intent o.intentRaw
            (check_document_relevance st.citations o.searchResults).1)
          (check_document_relevance st.citations o.searchResults).1).2.2.2 := rfl

theorem run_used_rag (st : AgentState) (o : RunOracles) (q : String) :
    (run st o q).1.used_rag = ((run st o q).1.tool_used == "documents") := rfl

theorem run_docs_searched (st : AgentState) (o : RunOracles) (q : String) :
    (run st o q).1.documents_searched
      = (match (run st o q).1.sources with
          | some s => s.length
          | none => 0) := rfl

theorem run_citations_state (st : AgentState) (o : RunOracles) (q : String) :
    (run st o q).2.citations
      = (check_document_relevance st.citations o.searchResults).2.2 := rfl

theorem gather_step_docs (cit1 : List Citation) (o : RunOracles) (q : String) :
    gather_step cit1 o q "documents" true
      = ("documents", build_context_with_citations cit1, none,
          format_sources_for_response cit1) := by
  unfold gather_step
  rw [if_pos (by simp)]

theorem gather_step_docs_nodocs (cit1 : List Citation) (o : RunOracles) (q : String) :
    gather_step cit1 o q "documents" false
      = ("web_search", format_web_results (web_search_tool o.webRaw q),
          if (web_search_tool o.webRaw q).success then
            some (make_web_sources (web_search_tool o.webRaw q).results)
          else none,
          none) := by
  unfold gather_step
  rw [if_neg (by simp), if_pos (by simp)]

theorem gather_step_web (cit1 : List Citation) (o : RunOracles) (q : String)
    (hd : Bool) :
    gather_step cit1 o q "web_search" hd
      = ("web_search", format_web_results (web_search_tool o.webRaw q),
          if (web_search_tool o.webRaw q).success then
            some (make_web_sources (web_search_tool o.webRaw q).results)
          else none,
          none) := by
  unfold gather_step
  rw [if_neg (by simp), if_pos (by simp)]

theorem gather_step_calc (cit1 : List Citation) (o : RunOracles) (q : String)
    (hd : Bool) :
    gather_step cit1 o q "calculator" hd
      = ("calculator",
          if (calculate o.calcEval q).success then
            (calculate o.calcEval q).expression ++ " = "
              ++ showCalcResult (calculate o.calcEval q).result
          else "Could not calculate: " ++ (calculate o.calcEval q).error.getD "Unknown error",
          none, none) := by
  unfold gather_step
  rw [if_neg (by simp), if_neg (by simp), if_pos (by simp)]

theorem gather_step_general (cit1 : List Citation) (o : RunOracles) (q : String)
    (hd : Bool) :
    gather_step cit1 o q "general" hd = ("general", "", none, none) := by
  unfold gather_step
  rw [if_neg (by simp), if_neg (by simp), if_neg (by simp)]

/-- Claim C1: when no retrieved passage reaches the minimum-relevance
threshold (including a caught retrieval error), the `QueryResult` returned by
`run` has `used_rag = false` and `tool_used` is never `"documents"`; an
intent of `"documents"` with no relevant passages is silently re-routed, so
`tool_used` ends as `"web_search"`. -/
theorem claim_C1 (st : AgentState) (o : RunOracles) (q : String)
    (h : filteredOf o.searchResults = []) :
    (run st o q).1.used_rag = false
    ∧ (run st o q).1.tool_used ≠ "documents"
    ∧ (classify_intent o.intentRaw false = "documents" →
        (run st o q).1.tool_used = "web_search") := by
  have hc : check_document_relevance st.citations o.searchResults
      = (false, [], st.citations) := by rw [check_eq, if_pos h]
  have htool : (run st o q).1.tool_used
      = (gather_step st.citations o q (classify_intent o.intentRaw false) false).1 := by
    rw [run_tool_used, hc]
  have hrag := run_used_rag st o q
  rcases classify_cases o.intentRaw false with hi | hi | hi | hi
  · rw [hi, gather_step_docs_nodocs] at htool
    have htool' : (run st o q).1.tool_used = "web_search" := by rw [htool]
    refine ⟨by rw [hrag, htool']; decide, by rw [htool']; decide, fun _ => htool'⟩
  · rw [hi, gather_step_web] at htool
    have htool' : (run st o q).1.tool_used = "web_search" := by rw [htool]
    refine ⟨by rw [hrag, htool']; decide, by rw [htool']; decide, fun hd => ?_⟩
    exact absurd (hi.symm.trans hd) (by decide)
  · rw [hi, gather_step_calc] at htool
    have htool' : (run st o q).1.tool_used = "calculator" := by rw [htool]
    refine ⟨by rw [hrag, htool']; decide, by rw [htool']; decide, fun hd => ?_⟩
    exact absurd (hi.symm.trans hd) (by decide)
  · rw [hi, gather_step_general] at htool
    have htool' : (run st o q).1.tool_used = "general" := by rw [htool]
    refine ⟨by rw [hrag, htool']; decide, by rw [htool']; decide, fun hd => ?_⟩
    exact absurd (hi.symm.trans hd) (by decide)

/-- Claim C1 witness: an empty vector-store result with a router completion
of `"documents"`. -/
theorem claim_C1_witness :
    (run { citations := [], conversation_history := [] } C1wit_o "w").1.used_rag = false
    ∧ (run { citations := [], conversation_history := [] } C1wit_o "w").1.tool_used
        ≠ "documents"
    ∧ (classify_intent C1wit_o.intentRaw false = "documents" →
        (run { citations := [], conversation_history := [] } C1wit_o "w").1.tool_used
          = "web_search") :=
  claim_C1 { citations := [], conversation_history := [] } C1wit_o "w" (by decide)

/-- Claim C9: `documents_searched` equals the number of post-deduplication
citations when the documents branch was taken (in which case `used_rag` is
true), and equals `0` on every other branch — even when retrieval ran and
found relevant passages for the query. -/
theorem claim_C9 (st : AgentState) (o : RunOracles) (q : String) :
    ((run st o q).1.tool_used = "documents" →
      (run st o q).1.documents_searched
        = (create_citations_from_results (filteredOf o.searchResults)).length
      ∧ (run st o q).1.used_rag = true)
    ∧ ((run st o q).1.tool_used ≠ "documents" →
      (run st o q).1.documents_searched = 0) := by
  by_cases hfil : filteredOf o.searchResults = []
  · have hc : check_document_relevance st.citations o.searchResults
        = (false, [], st.citations) := by rw [check_eq, if_pos hfil]
    have htool : (run st o q).1.tool_used
        = (gather_step st.citations o q (classify_intent o.intentRaw false) false).1 := by
      rw [run_tool_used, hc]
    have hsrc : (run st o q).1.sources
        = (gather_step st.citations o q (classify_intent o.intentRaw false) false).2.2.2 := by
      rw [run_sources, hc]
    rcases classify_cases o.intentRaw false with hi | hi | hi | hi <;>
      rw [hi] at htool hsrc
    · rw [gather_step_docs_nodocs] at htool hsrc
      have htool' : (run st o q).1.tool_used = "web_search" := by rw [htool]
      have hsrc' : (run st o q).1.sources = none := by rw [hsrc]
      refine ⟨fun hd => absurd (htool'.symm.trans hd) (by decide), fun _ => ?_⟩
      rw [run_docs_searched, hsrc']
    · rw [gather_step_web] at htool hsrc
      have htool' : (run st o q).1.tool_used = "web_search" := by rw [htool]
      have hsrc' : (run st o q).1.sources = none := by rw [hsrc]
      refine ⟨fun hd => absurd (htool'.symm.trans hd) (by decide), fun _ => ?_⟩
      rw [run_docs_searched, hsrc']
    · rw [gather_step_calc] at htool hsrc
      have htool' : (run st o q).1.tool_used = "calculator" := by rw [htool]
      have hsrc' : (run st o q).1.sources = none := by rw [hsrc]
      refine ⟨fun hd => absurd (htool'.symm.trans hd) (by decide), fun _ => ?_⟩
      rw [run_docs_searched, hsrc']
    · rw [gather_step_general] at htool hsrc
      have htool' : (run st o q).1.tool_used = "general" := by rw [htool]
      have hsrc' : (run st o q).1.sources = none := by rw [hsrc]
      refine ⟨fun hd => absurd (htool'.symm.trans hd) (by decide), fun _ => ?_⟩
      rw [run_docs_searched, hsrc']
  · have hc : check_document_relevance st.citations o.searchResults
        = (true, filteredOf o.searchResults,
            create_citations_from_results (filteredOf o.searchResults)) := by
      rw [check_eq, if_neg hfil]
    have htool : (run st o q).1.tool_used
        = (gather_step (create_citations_from_results (filteredOf o.searchResults)) o q
            (classify_intent o.intentRaw true) true).1 := by
      rw [run_tool_used, hc]
    have hsrc : (run st o q).1.sources
        = (gather_step (create_citations_from_results (filteredOf o.searchResults)) o q
            (classify_intent o.intentRaw true) true).2.2.2 := by
      rw [run_sources, hc]
    rcases classify_cases o.intentRaw true with hi | hi | hi | hi <;>
      rw [hi] at htool hsrc
    · rw [gather_step_docs] at htool hsrc
      have htool' : (run st o q).1.tool_used = "documents" := by rw [htool]
      have hne := create_citations_nonempty _ hfil
      have hsrc' : (run st o q).1.sources
          = some ((create_citations_from_results (filteredOf o.searchResults)).map
              Citation.to_dict) := by
        rw [hsrc]
        show format_sources_for_response _ = _
        simp [format_sources_for_response, hne]
      constructor
      · intro _
        constructor
        · rw [run_docs_searched, hsrc']
          simp
        · rw [run_used_rag, htool']
          decide
      · intro hne'
        exact absurd htool' hne'
    · rw [gather_step_web] at htool hsrc
      have htool' : (run st o q).1.tool_used = "web_search" := by rw [htool]
      have hsrc' : (run st o q).1.sources = none := by rw [hsrc]
      refine ⟨fun hd => absurd (htool'.symm.trans hd) (by decide), fun _ => ?_⟩
      rw [run_docs_searched, hsrc']
    · rw [gather_step_calc] at htool hsrc
      have htool' : (run st o q).1.tool_used = "calculator" := by rw [htool]
      have hsrc' : (run st o q).1.sources = none := by rw [hsrc]
      refine ⟨fun hd => absurd (htool'.symm.trans hd) (by decide), fun _ => ?_⟩
      rw [run_docs_searched, hsrc']
    · rw [gather_step_general] at htool hsrc
      have htool' : (run st o q).1.tool_used = "general" := by rw [htool]
      have hsrc' : (run st o q).1.sources = none := by rw [hsrc]
      refine ⟨fun hd => absurd (htool'.symm.trans hd) (by decide), fun _ => ?_⟩
      rw [run_docs_searched, hsrc']

/-- Claim C7 (amended): the citation state is rebuilt (reset and repopulated)
only when a query finds relevant passages; when a query finds none, the
previous query's citations remain in the `CitationManager` state — though
they do not reach that query's result, whose `sources` field is `none`. -/
theorem claim_C7 (st : AgentState) (o : RunOracles) (q : String) :
    (filteredOf o.searchResults ≠ [] →
      (run st o q).2.citations
        = create_citations_from_results (filteredOf o.searchResults))
    ∧ (filteredOf o.searchResults = [] →
      (run st o q).2.citations = st.citations
      ∧ (run st o q).1.sources = none) := by
  constructor
  · intro hfil
    rw [run_citations_state, check_eq, if_neg hfil]
  · intro hfil
    have hc : check_document_relevance st.citations o.searchResults
        = (false, [], st.citations) := by rw [check_eq, if_pos hfil]
    constructor
    · rw [run_citations_state, hc]
    · have hsrc : (run st o q).1.sources
          = (gather_step st.citations o q (classify_intent o.intentRaw false) false).2.2.2 := by
        rw [run_sources, hc]
      rcases classify_cases o.intentRaw false with hi | hi | hi | hi <;>
        rw [hi] at hsrc
      · rw [gather_step_docs_nodocs] at hsrc
        rw [hsrc]
      · rw [gather_step_web] at hsrc
        rw [hsrc]
      · rw [gather_step_calc] at hsrc
        rw [hsrc]
      · rw [gather_step_general] at hsrc
        rw [hsrc]

/-- Claim C7, counterexample to the claim as stated: after a first query that
builds a citation from a relevant passage, a second query that retrieves no
relevant passage leaves the first query's citations in the `CitationManager`
state while the second answer is produced — the state is not cleared at the
start of every query (`CitationManager.clear` is never called on this path;
the list is only reset inside `create_citations_from_results`, which runs
only when relevant passages are found). -/
theorem claim_C7_counterexample :
    (run (run { citations := [], conversation_history := [] } C7o1 "q1").2
        C7o2 "q2").2.citations
      = (run { citations := [], conversation_history := [] } C7o1 "q1").2.citations
    ∧ (run { citations := [], conversation_history := [] } C7o1 "q1").2.citations
      ≠ [] := by
  have hle : min_relevance ≤ ((1 : ℚ)/2) := by norm_num [min_relevance]
  have hfil1 : filteredOf C7o1.searchResults = [(C7doc, (1 : ℚ)/2)] := by
    show List.filter (fun r => decide (min_relevance ≤ r.2)) [(C7doc, (1 : ℚ)/2)] = _
    have hdec : decide (min_relevance ≤ ((C7doc, (1 : ℚ)/2)).2) = true :=
      decide_eq_true hle
    rw [List.filter_cons, hdec]
    simp
  have h1 : (run { citations := [], conversation_history := [] } C7o1 "q1").2.citations
      = create_citations_from_results [(C7doc, (1 : ℚ)/2)] := by
    rw [run_citations_state, check_eq, if_neg (by rw [hfil1]; simp), hfil1]
  have h2 : (run (run { citations := [], conversation_history := [] } C7o1 "q1").2
        C7o2 "q2").2.citations
      = (run { citations := [], conversation_history := [] } C7o1 "q1").2.citations := by
    rw [run_citations_state, check_eq,
      if_pos (show filteredOf C7o2.searchResults = [] from rfl)]
  refine ⟨h2, ?_⟩
  rw [h1]
  exact create_citations_nonempty _ (by simp)

end AIKA
